import Mathlib

/-!
Verification of the asteroid exploration driver (`src/explore_main.cpp`) and of
`MeshData` construction (`src/mesh.cpp`) against their natural-language
specification.  Real-valued program quantities (C++ `double`) are modelled as
exact rationals, except for the one square-root computation, which lives in `ℝ`.
The component classes the driver calls (`Lidar`, `RayCaster`,
`ReconstructMesh`, `Controller`) are declared in headers outside `src/`; the
driver is verified for every behaviour of those components, so they appear here
as abstract function fields.
-/

namespace AstExplore

/-! ## Mesh data (src/mesh.cpp) -/

/-- One row of the Eigen vertex matrix `V` (three coordinates). -/
abbrev Vec3 : Type := ℚ × ℚ × ℚ

/-- One row of the Eigen face matrix `F`: three C++ `int` entries, hence
integers that may be negative. -/
abbrev Face : Type := ℤ × ℤ × ℤ

/-- Coordinate access within a vertex row. -/
def vcomp (v : Vec3) : Fin 3 → ℚ
  | 0 => v.1
  | 1 => v.2.1
  | 2 => v.2.2

/-- Indexing a sequence with a C++ `int` index.  The access is well defined
exactly when `0 ≤ i < length`; `none` models the unchecked out-of-bounds
access that the C++ would perform otherwise. -/
def lookupZ {α : Type} (xs : List α) (i : ℤ) : Option α :=
  if 0 ≤ i then xs[i.toNat]? else none

/-- The element access `V(i, c)` of `mesh.cpp`. -/
def entry (V : List Vec3) (i : ℤ) (c : Fin 3) : Option ℚ :=
  (lookupZ V i).map (fun v => vcomp v c)

/-- The CGAL surface mesh as built by `MeshData::build_surface_mesh`:
`add_vertex` is modelled as appending the point and handing back the next
vertex descriptor `0, 1, 2, …` (CGAL's `Vertex_index` allocation order), and
`add_face` as appending the descriptor triple. -/
structure SurfaceMesh : Type where
  smVerts : List Vec3
  smFaces : List (ℕ × ℕ × ℕ)
deriving DecidableEq

/-- A face index being inside `[0, |V|)`. -/
abbrev in_range (n : ℕ) (i : ℤ) : Prop := 0 ≤ i ∧ i < (n : ℤ)

/-- All three entries of a face row lie inside `[0, n)`. -/
abbrev face_ok (n : ℕ) (f : Face) : Prop :=
  in_range n f.1 ∧ in_range n f.2.1 ∧ in_range n f.2.2

/-- The descriptor triple that `add_face` receives for a face row. -/
def face_dscr (f : Face) : ℕ × ℕ × ℕ := (f.1.toNat, f.2.1.toNat, f.2.2.toNat)

/-- One pass of the face loop of `MeshData::build_surface_mesh`
(mesh.cpp lines 45-57).  The points `p1, p2, p3` are computed — `p2` mixing
rows `F(ii,1)` and `F(ii,2)` exactly as the source does — and then discarded;
the face added to the mesh uses only the vertex descriptors fetched at the raw
face entries. -/
def buildFace (V : List Vec3) (vd : List ℕ) (f : Face) : Option (ℕ × ℕ × ℕ) := do
  let p1 := (← entry V f.1 0, ← entry V f.1 1, ← entry V f.1 2)
  let p2 := (← entry V f.2.1 0, ← entry V f.2.1 1, ← entry V f.2.2 2)
  let p3 := (← entry V f.2.2 0, ← entry V f.2.2 1, ← entry V f.2.2 2)
  let v1 ← lookupZ vd f.1
  let v2 ← lookupZ vd f.2.1
  let v3 ← lookupZ vd f.2.2
  let _points := (p1, p2, p3)
  pure (v1, v2, v3)

/-- The face loop of `MeshData::build_surface_mesh`, row by row. -/
def build_faces (V : List Vec3) (vd : List ℕ) : List Face → Option (List (ℕ × ℕ × ℕ))
  | [] => some []
  | f :: rest => do
    let t ← buildFace V vd f
    let ts ← build_faces V vd rest
    pure (t :: ts)

/-- `MeshData::build_surface_mesh` (mesh.cpp lines 20-59): the vertex loop adds
one surface-mesh vertex per row of `V`, collecting the descriptors
`0, …, |V|-1` in `vertex_descriptor`; the face loop then adds one face per row
of `F`. -/
def build_surface_mesh (V : List Vec3) (F : List Face) :
    Option (SurfaceMesh × List ℕ) :=
  let vd := List.range V.length
  match build_faces V vd F with
  | none => none
  | some fs => some (⟨V, fs⟩, vd)

/-- The mesh container of `mesh.cpp`.  `polyhedron` mirrors the CGAL
polyhedron.  Modelled from the spec: the body of `eigen_to_polyhedron`
(declared in `polyhedron.hpp`, not part of `src/`) builds the CGAL polyhedron
from exactly `(V, F)`, so it is modelled as the pair itself. -/
structure MeshData : Type where
  vertices : List Vec3
  faces : List Face
  polyhedron : List Vec3 × List Face
  surface_mesh : SurfaceMesh
  vertex_descriptor : List ℕ
deriving DecidableEq

/-- The constructor `MeshData::MeshData(V, F)` (mesh.cpp lines 7-13): store
`V` and `F`, build the polyhedron, build the surface mesh.  No validation of
any kind is performed; the only way construction can go wrong is an
out-of-bounds access inside `build_surface_mesh`, modelled by `none`. -/
def MeshData.make (V : List Vec3) (F : List Face) : Option MeshData :=
  match build_surface_mesh V F with
  | none => none
  | some (sm, vd) => some ⟨V, F, (V, F), sm, vd⟩

/-! ## The exploration driver loop (src/explore_main.cpp) -/

/-- The component interface consumed by the driver loop.  The bodies of
`Lidar::define_target`, `RayCaster::castray`, `ReconstructMesh::single_update`,
`Controller::explore_asteroid` (composed with `get_desired_state` and
`State::update_state`) and the weight accessor are outside `src/`; the driver
is verified for every behaviour of these components.  `define_target` absorbs
the constant stand-off distance, `single_update` the constant `max_angle`.
`weight_sum` models `get_weights().sum()`. -/
structure Components (St Tgt Obs Mesh : Type) : Type where
  define_target : St → Tgt
  castray : St → Tgt → Obs
  single_update : Mesh → Obs → Mesh
  explore_asteroid : St → Mesh → St
  weight_sum : Mesh → ℚ

/-- The data written by the driver for one loop iteration `ii`
(explore_main.cpp lines 171-177): `rec_mesh` stands for the reconstruction
snapshot from which both the `reconstructed_vertex` and the
`reconstructed_weight` datasets are written, `rec_state` for the `state`
dataset, `rec_target` for `targets`, `rec_intersection` for `intersections`. -/
structure IterRecord (St Tgt Obs Mesh : Type) : Type where
  rec_mesh : Mesh
  rec_state : St
  rec_target : Tgt
  rec_intersection : Obs
deriving DecidableEq

variable {St Tgt Obs Mesh : Type}

/-- One iteration body of the driver loop (explore_main.cpp lines 155-181), in
source order: target from the current pose, ray cast from the current pose to
that target, reconstruction update with the intersection, controller on the
updated reconstruction, state update, then the writes. -/
def explore_step (C : Components St Tgt Obs Mesh) (s : St) (m : Mesh) :
    IterRecord St Tgt Obs Mesh :=
  let target := C.define_target s
  let inter := C.castray s target
  let m2 := C.single_update m inter
  let s2 := C.explore_asteroid s m2
  { rec_mesh := m2, rec_state := s2, rec_target := target, rec_intersection := inter }

/-- The pose and reconstruction at the start of iteration `n` of the loop
(ignoring the termination test, which only truncates the trace). -/
def loop_state (C : Components St Tgt Obs Mesh) (s : St) (m : Mesh) : ℕ → St × Mesh
  | 0 => (s, m)
  | n + 1 =>
    let sm := loop_state C s m n
    let r := explore_step C sm.1 sm.2
    (r.rec_state, r.rec_mesh)

/-- The driver loop `while (sum_weights > 1e-2) { … }` of explore_main.cpp
lines 153-181, as the list of iteration records it writes.  `fuel` is an
explicit bound on the number of iterations inspected (the C++ loop has no such
bound; every theorem below holds for every `fuel`).  The while condition is
checked against the weight sum of the current reconstruction, exactly as the
code does by recomputing `sum_weights` at the end of each iteration. -/
def explore_loop (C : Components St Tgt Obs Mesh) :
    ℕ → St → Mesh → List (IterRecord St Tgt Obs Mesh)
  | 0, _, _ => []
  | n + 1, s, m =>
    if 1 / 100 < C.weight_sum m then
      let r := explore_step C s m
      r :: explore_loop C n r.rec_state r.rec_mesh
    else []

/-! ## Command line and asteroid configuration (src/explore_main.cpp) -/

/-- Modelled from the spec: `InputParser::option_exists` (declared in
`input_parser.hpp`, which is not part of `src/`) — whether the option token
occurs among the command-line tokens. -/
def option_exists (args : List String) (opt : String) : Bool :=
  args.contains opt

/-- Modelled from the spec: `InputParser::get_command_option` — the token
immediately following the first occurrence of the option, or the empty string
when the option is absent or last. -/
def get_command_option : List String → String → String
  | [], _ => ""
  | a :: rest, opt =>
    if a = opt then
      match rest with
      | [] => ""
      | b :: _ => b
    else get_command_option rest opt

/-- The per-asteroid configuration constants set in explore_main.cpp
lines 50-93.  All values are exact decimals, kept as rationals. -/
structure AstConfig : Type where
  min_angle : ℚ
  max_radius : ℚ
  max_distance : ℚ
  surf_area : ℚ
  axes : ℚ × ℚ × ℚ
  obj_path : String
  initial_pos : ℚ × ℚ × ℚ
deriving DecidableEq

/-- The `castalia` branch (explore_main.cpp lines 54-62): axes are the
literal semi-major axes divided by two. -/
def castalia_config : AstConfig where
  min_angle := 10
  max_radius := 3 / 100
  max_distance := 1 / 2
  surf_area := 5 / 1000
  axes := (16130 / 10000 / 2, 9810 / 10000 / 2, 8260 / 10000 / 2)
  obj_path := "./data/shape_model/CASTALIA/castalia.obj"
  initial_pos := (15 / 10, 0, 0)

/-- The `geographos` branch (explore_main.cpp lines 63-72): axes `(5, 2, 2.1)`
then divided componentwise by two. -/
def geographos_config : AstConfig where
  min_angle := 10
  max_radius := 5 / 100
  max_distance := 1 / 2
  surf_area := 5 / 1000
  axes := (5 / 2, 2 / 2, 21 / 10 / 2)
  obj_path := "./data/shape_model/RADAR/1620geographos.obj"
  initial_pos := (5, 0, 0)

/-- The `golevka` branch (explore_main.cpp lines 73-80): axes `(0.4, 0.4, 0.4)`
with no halving. -/
def golevka_config : AstConfig where
  min_angle := 10
  max_radius := 15 / 1000
  max_distance := 1 / 2
  surf_area := 5 / 1000
  axes := (4 / 10, 4 / 10, 4 / 10)
  obj_path := "./data/shape_model/RADAR/6489golevka.obj"
  initial_pos := (1, 0, 0)

/-- The `52760` branch (explore_main.cpp lines 81-89): axes `(1.1, 1.1, 1.1)`
then divided componentwise by two. -/
def ast52760_config : AstConfig where
  min_angle := 10
  max_radius := 5 / 100
  max_distance := 1 / 2
  surf_area := 5 / 1000
  axes := (11 / 10 / 2, 11 / 10 / 2, 11 / 10 / 2)
  obj_path := "./data/shape_model/RADAR/52760.obj"
  initial_pos := (15 / 10, 0, 0)

/-- The asteroid-name dispatch of explore_main.cpp lines 54-93: the four
recognized names and `none` for anything else. -/
def asteroidConfig (ast_name : String) : Option AstConfig :=
  if ast_name = "castalia" then some castalia_config
  else if ast_name = "geographos" then some geographos_config
  else if ast_name = "golevka" then some golevka_config
  else if ast_name = "52760" then some ast52760_config
  else none

/-- The angular tolerance of explore_main.cpp line 107:
`pow(surf_area / (axes[0] * axes[0]), 0.5)`, a real power with exponent
one half. -/
noncomputable def max_angle (c : AstConfig) : ℝ :=
  ((c.surf_area : ℝ) / ((c.axes.1 : ℝ) * (c.axes.1 : ℝ))) ^ ((1 : ℝ) / 2)

/-- How far `main` gets before (or into) the loop: the early-return branches of
explore_main.cpp lines 27-93, and `run cfg` for a recognized asteroid, which
reaches the loop and, barring an exception from the external loader or HDF5
layer, falls through to `return 0`. -/
inductive MainResult : Type where
  | usage : MainResult
  | missing_output : MainResult
  | missing_name : MainResult
  | unknown_asteroid : MainResult
  | run : AstConfig → MainResult
deriving DecidableEq

/-- The branch structure of `main` (explore_main.cpp lines 26-93): `-h` first,
then the `-o` value, then the `-n` value, then the name dispatch. -/
def explore_main (args : List String) : MainResult :=
  if option_exists args "-h" then MainResult.usage
  else if get_command_option args "-o" = "" then MainResult.missing_output
  else if get_command_option args "-n" = "" then MainResult.missing_name
  else
    match asteroidConfig (get_command_option args "-n") with
    | some c => MainResult.run c
    | none => MainResult.unknown_asteroid

/-- The exit code of each branch of `main`: the four early branches execute
`return 1` (explore_main.cpp lines 31, 38, 45, 92), and the fall-through end of
`main` executes `return 0` (line 184).  No branch returns 2. -/
def exit_code : MainResult → ℤ
  | MainResult.usage => 1
  | MainResult.missing_output => 1
  | MainResult.missing_name => 1
  | MainResult.unknown_asteroid => 1
  | MainResult.run _ => 0

/-! ## Concrete component bundles used for witnesses and counterexamples -/

/-- A concrete component bundle over integer poses/targets/observations and a
rational weight sum, used to evaluate the driver loop on small inputs. -/
def Ccx : Components ℤ ℤ ℤ ℚ where
  define_target s := s
  castray s t := s + t + 7
  single_update _ _ := 0
  explore_asteroid s _ := s + 1
  weight_sum m := m

/-- A concrete component bundle in which the ray cast always returns the
zero no-hit sentinel and the reconstruction update is a no-op (the skipped
update), used to evaluate the driver loop on a missed cast. -/
def Cskip : Components ℤ ℤ ℤ ℚ where
  define_target s := s
  castray _ _ := 0
  single_update m _ := m
  explore_asteroid s _ := s + 1
  weight_sum m := m

/-! ## Helper lemmas: mesh construction -/

theorem lookupZ_eq_some_of_in_range {α : Type} (xs : List α) (i : ℤ)
    (h : in_range xs.length i) : ∃ a, lookupZ xs i = some a := by
  unfold lookupZ
  rw [if_pos h.1]
  have hlt : i.toNat < xs.length := by omega
  exact ⟨xs.get ⟨i.toNat, hlt⟩, by simp [List.getElem?_eq_some_iff, hlt]⟩

theorem lookupZ_eq_none_of_not_in_range {α : Type} (xs : List α) (i : ℤ)
    (h : ¬ in_range xs.length i) : lookupZ xs i = none := by
  unfold lookupZ
  by_cases h0 : 0 ≤ i
  · rw [if_pos h0]
    exact List.getElem?_eq_none (by omega)
  · rw [if_neg h0]

theorem lookupZ_range_eq (n : ℕ) (i : ℤ) (h : in_range n i) :
    lookupZ (List.range n) i = some i.toNat := by
  unfold lookupZ
  rw [if_pos h.1]
  exact List.getElem?_range (by omega)

theorem buildFace_eq (V : List Vec3) (f : Face) :
    buildFace V (List.range V.length) f =
      if face_ok V.length f then some (face_dscr f) else none := by
  by_cases h1 : in_range V.length f.1
  · by_cases h2 : in_range V.length f.2.1
    · by_cases h3 : in_range V.length f.2.2
      · obtain ⟨a1, ha1⟩ := lookupZ_eq_some_of_in_range V f.1 h1
        obtain ⟨a2, ha2⟩ := lookupZ_eq_some_of_in_range V f.2.1 h2
        obtain ⟨a3, ha3⟩ := lookupZ_eq_some_of_in_range V f.2.2 h3
        have hr1 := lookupZ_range_eq V.length f.1 h1
        have hr2 := lookupZ_range_eq V.length f.2.1 h2
        have hr3 := lookupZ_range_eq V.length f.2.2 h3
        rw [if_pos ⟨h1, h2, h3⟩]
        simp [buildFace, entry, ha1, ha2, ha3, List.length_range, hr1, hr2, hr3,
          face_dscr]
      · rw [if_neg (by simp [face_ok, h3])]
        obtain ⟨a1, ha1⟩ := lookupZ_eq_some_of_in_range V f.1 h1
        obtain ⟨a2, ha2⟩ := lookupZ_eq_some_of_in_range V f.2.1 h2
        have hn3 := lookupZ_eq_none_of_not_in_range V f.2.2 h3
        simp [buildFace, entry, ha1, ha2, hn3]
    · rw [if_neg (by simp [face_ok, h2])]
      obtain ⟨a1, ha1⟩ := lookupZ_eq_some_of_in_range V f.1 h1
      have hn2 := lookupZ_eq_none_of_not_in_range V f.2.1 h2
      simp [buildFace, entry, ha1, hn2]
  · rw [if_neg (by simp [face_ok, h1])]
    have hn1 := lookupZ_eq_none_of_not_in_range V f.1 h1
    simp [buildFace, entry, hn1]

theorem build_faces_eq (V : List Vec3) (F : List Face) :
    build_faces V (List.range V.length) F =
      if ∀ f ∈ F, face_ok V.length f then some (F.map face_dscr) else none := by
  induction F with
  | nil => simp [build_faces]
  | cons f rest ih =>
    have hcons : (∀ g ∈ f :: rest, face_ok V.length g) ↔
        (face_ok V.length f ∧ ∀ g ∈ rest, face_ok V.length g) := by
      constructor
      · intro hall
        exact ⟨hall f (List.mem_cons_self f rest),
          fun g hg => hall g (List.mem_cons_of_mem f hg)⟩
      · intro hand g hg
        rcases List.mem_cons.mp hg with hg0 | hg1
        · exact hg0 ▸ hand.1
        · exact hand.2 g hg1
    simp only [build_faces, buildFace_eq, ih]
    by_cases hf : face_ok V.length f
    · by_cases hr : ∀ g ∈ rest, face_ok V.length g
      · rw [if_pos hf, if_pos hr, if_pos (hcons.mpr ⟨hf, hr⟩)]
        rfl
      · rw [if_pos hf, if_neg hr, if_neg (fun hall => hr (hcons.mp hall).2)]
        rfl
    · rw [if_neg hf, if_neg (fun hall => hf (hcons.mp hall).1)]
      rfl

theorem make_eq (V : List Vec3) (F : List Face) :
    MeshData.make V F =
      if ∀ f ∈ F, face_ok V.length f then
        some ⟨V, F, (V, F), ⟨V, F.map face_dscr⟩, List.range V.length⟩
      else none := by
  simp only [MeshData.make, build_surface_mesh, build_faces_eq]
  by_cases h : ∀ f ∈ F, face_ok V.length f
  · rw [if_pos h, if_pos h]
  · rw [if_neg h, if_neg h]

/-! ## Claims C2, C9, C10 -/

/-- C2, counterexample to the claim as stated: the face `(0, 0, 0)` contains
two (indeed three) equal indices, all inside `[0, |V|)`, yet `MeshData`
construction succeeds — `mesh.cpp` performs no duplicate check and has no
MeshMalformed failure path. -/
theorem C2_counterexample :
    MeshData.make [((0 : ℚ), (0 : ℚ), (0 : ℚ))] [((0 : ℤ), (0 : ℤ), (0 : ℤ))] ≠
      none := by decide

/-- C2 (amended): `MeshData::MeshData` performs no validation at all and has
no MeshMalformed failure: construction succeeds for every `(V, F)` whose face
entries all lie in `[0, |V|)`, duplicate indices included; out-of-range
entries lead to unchecked out-of-bounds accesses (modelled by `none`), not to
a MeshMalformed error. -/
theorem C2_no_validation (V : List Vec3) (F : List Face)
    (h : ∀ f ∈ F, face_ok V.length f) :
    (MeshData.make V F).isSome = true := by
  rw [make_eq, if_pos h]
  rfl

/-- C2, witness: a mesh whose single face repeats vertex index 1 is
constructed successfully. -/
theorem C2_witness :
    (MeshData.make [((1 : ℚ), (2 : ℚ), (3 : ℚ)), ((4 : ℚ), (5 : ℚ), (6 : ℚ))]
      [((0 : ℤ), (1 : ℤ), (1 : ℤ))]).isSome = true :=
  C2_no_validation
    [((1 : ℚ), (2 : ℚ), (3 : ℚ)), ((4 : ℚ), (5 : ℚ), (6 : ℚ))]
    [((0 : ℤ), (1 : ℤ), (1 : ℤ))] (by decide)

/-- C9: `MeshData` construction indexes `V` and `vertex_descriptor` with the
raw face entries and nothing else guards those accesses — every access is in
bounds (construction is well defined) exactly when every face entry lies in
`[0, |V|)`. -/
theorem C9_raw_indexing (V : List Vec3) (F : List Face) :
    (MeshData.make V F).isSome = true ↔ ∀ f ∈ F, face_ok V.length f := by
  rw [make_eq]
  by_cases h : ∀ f ∈ F, face_ok V.length f
  · simp [h]
  · simp [h]

/-- C10: for in-range faces, construction stores `V` and `F` verbatim, the
surface mesh holds one vertex per row of `V` in row order and one descriptor
triple `(F(i,0), F(i,1), F(i,2))` per row of `F`, and the vertex descriptors
are `0, …, |V|-1`; the discarded points `p1, p2, p3` (with `p2`'s mixed rows)
leave no trace in the result. -/
theorem C10_verbatim_connectivity (V : List Vec3) (F : List Face)
    (h : ∀ f ∈ F, face_ok V.length f) :
    MeshData.make V F =
      some ⟨V, F, (V, F), ⟨V, F.map face_dscr⟩, List.range V.length⟩ := by
  rw [make_eq, if_pos h]

/-- C10, witness: a concrete triangle. -/
theorem C10_witness :
    MeshData.make
        [((0 : ℚ), (0 : ℚ), (0 : ℚ)), ((1 : ℚ), (0 : ℚ), (0 : ℚ)),
          ((0 : ℚ), (1 : ℚ), (0 : ℚ))]
        [((0 : ℤ), (1 : ℤ), (2 : ℤ))] =
      some ⟨[((0 : ℚ), (0 : ℚ), (0 : ℚ)), ((1 : ℚ), (0 : ℚ), (0 : ℚ)),
          ((0 : ℚ), (1 : ℚ), (0 : ℚ))],
        [((0 : ℤ), (1 : ℤ), (2 : ℤ))],
        ([((0 : ℚ), (0 : ℚ), (0 : ℚ)), ((1 : ℚ), (0 : ℚ), (0 : ℚ)),
          ((0 : ℚ), (1 : ℚ), (0 : ℚ))],
          [((0 : ℤ), (1 : ℤ), (2 : ℤ))]),
        ⟨[((0 : ℚ), (0 : ℚ), (0 : ℚ)), ((1 : ℚ), (0 : ℚ), (0 : ℚ)),
          ((0 : ℚ), (1 : ℚ), (0 : ℚ))], [(0, 1, 2)]⟩,
        [0, 1, 2]⟩ :=
  C10_verbatim_connectivity
    [((0 : ℚ), (0 : ℚ), (0 : ℚ)), ((1 : ℚ), (0 : ℚ), (0 : ℚ)),
      ((0 : ℚ), (1 : ℚ), (0 : ℚ))]
    [((0 : ℤ), (1 : ℤ), (2 : ℤ))] (by decide)

/-! ## Helper lemmas: the driver loop -/

theorem loop_state_shift (C : Components St Tgt Obs Mesh) (s : St) (m : Mesh)
    (k : ℕ) :
    loop_state C s m (k + 1) =
      loop_state C (explore_step C s m).rec_state (explore_step C s m).rec_mesh k := by
  induction k with
  | zero => rfl
  | succ k ih =>
    simp only [loop_state]
    rw [← ih]
    simp only [loop_state]

theorem explore_loop_get_eq (C : Components St Tgt Obs Mesh) :
    ∀ (fuel : ℕ) (s : St) (m : Mesh) (i : ℕ) (r : IterRecord St Tgt Obs Mesh),
      (explore_loop C fuel s m).get? i = some r →
      r = explore_step C (loop_state C s m i).1 (loop_state C s m i).2 := by
  intro fuel
  induction fuel with
  | zero => intro s m i r h; simp [explore_loop] at h
  | succ n ih =>
    intro s m i r h
    rw [explore_loop] at h
    by_cases hc : 1 / 100 < C.weight_sum m
    · rw [if_pos hc] at h
      cases i with
      | zero =>
        simp only [List.get?_eq_getElem?, List.getElem?_cons_zero,
          Option.some.injEq] at h
        exact h.symm
      | succ k =>
        simp only [List.get?_eq_getElem?, List.getElem?_cons_succ,
          ← List.get?_eq_getElem?] at h
        rw [loop_state_shift]
        exact ih _ _ k r h
    · rw [if_neg hc] at h
      simp at h

theorem explore_loop_length_iff (C : Components St Tgt Obs Mesh) :
    ∀ (fuel : ℕ) (s : St) (m : Mesh) (i : ℕ),
      i < (explore_loop C fuel s m).length ↔
        (i < fuel ∧ ∀ j, j ≤ i → 1 / 100 < C.weight_sum (loop_state C s m j).2) := by
  intro fuel
  induction fuel with
  | zero =>
    intro s m i
    simp [explore_loop]
  | succ n ih =>
    intro s m i
    rw [explore_loop]
    by_cases hc : 1 / 100 < C.weight_sum m
    · rw [if_pos hc]
      cases i with
      | zero =>
        simp only [List.length_cons]
        constructor
        · intro _
          refine ⟨Nat.succ_pos n, ?_⟩
          intro j hj
          have hj0 : j = 0 := Nat.le_zero.mp hj
          subst hj0
          exact hc
        · intro _
          exact Nat.succ_pos _
      | succ k =>
        simp only [List.length_cons, Nat.succ_lt_succ_iff]
        rw [ih]
        constructor
        · rintro ⟨hk, hall⟩
          refine ⟨by omega, ?_⟩
          intro j hj
          cases j with
          | zero => exact hc
          | succ j2 =>
            rw [loop_state_shift]
            exact hall j2 (by omega)
        · rintro ⟨hk, hall⟩
          refine ⟨by omega, ?_⟩
          intro j hj
          rw [← loop_state_shift]
          exact hall (j + 1) (by omega)
    · rw [if_neg hc]
      simp only [List.length_nil]
      constructor
      · intro h0
        exact absurd h0 (Nat.not_lt_zero i)
      · rintro ⟨_, hall⟩
        exact absurd (hall 0 (Nat.zero_le i)) hc

/-! ## Claims C1, C4, C5, C8 -/

/-- C1, counterexample to the claim as stated: with the concrete components
`Ccx`, initial pose `0` and initial weight sum `1`, iteration 0 records state
`1`, while the pose from which iteration 0's target and intersection were
computed is the initial pose `0` — so the recorded state is not the pose from
which the recorded target of the same iteration was computed. -/
theorem C1_counterexample :
    ((explore_loop Ccx 1 0 1).get? 0).map (fun r => r.rec_state) = some 1 ∧
    ((explore_loop Ccx 1 0 1).get? 0).map (fun r => r.rec_target) = some 0 ∧
    (loop_state Ccx 0 1 0).1 = 0 ∧
    Ccx.define_target 0 = 0 ∧
    ¬ ((1 : ℤ) = 0) := by
  norm_num [explore_loop, explore_step, loop_state, Ccx]

/-- C1 (amended): iteration `i`'s recorded estimate and recorded state are the
consistent end-of-iteration snapshot — the recorded state is the pose the
controller produced from the recorded (updated) estimate, and the pair becomes
the start of iteration `i + 1` — while the recorded target and intersection of
iteration `i` were computed from the pose at the start of iteration `i`
(the previously recorded state, or the initial state for `i = 0`), not from
the state recorded at iteration `i`. -/
theorem C1_recorded_snapshot (C : Components St Tgt Obs Mesh) (fuel : ℕ)
    (s : St) (m : Mesh) (i : ℕ) (r : IterRecord St Tgt Obs Mesh)
    (h : (explore_loop C fuel s m).get? i = some r) :
    r.rec_target = C.define_target (loop_state C s m i).1 ∧
    r.rec_intersection = C.castray (loop_state C s m i).1 r.rec_target ∧
    r.rec_mesh = C.single_update (loop_state C s m i).2 r.rec_intersection ∧
    r.rec_state = C.explore_asteroid (loop_state C s m i).1 r.rec_mesh ∧
    loop_state C s m (i + 1) = (r.rec_state, r.rec_mesh) := by
  have hr := explore_loop_get_eq C fuel s m i r h
  subst hr
  refine ⟨rfl, rfl, rfl, rfl, ?_⟩
  simp only [loop_state]

/-- C1, witness: the amended statement evaluated on the concrete components
`Ccx` at iteration 0. -/
theorem C1_recorded_snapshot_witness :
    (⟨0, 1, 0, 7⟩ : IterRecord ℤ ℤ ℤ ℚ).rec_target =
        Ccx.define_target (loop_state Ccx 0 1 0).1 ∧
    (⟨0, 1, 0, 7⟩ : IterRecord ℤ ℤ ℤ ℚ).rec_intersection =
        Ccx.castray (loop_state Ccx 0 1 0).1
          (⟨0, 1, 0, 7⟩ : IterRecord ℤ ℤ ℤ ℚ).rec_target ∧
    (⟨0, 1, 0, 7⟩ : IterRecord ℤ ℤ ℤ ℚ).rec_mesh =
        Ccx.single_update (loop_state Ccx 0 1 0).2
          (⟨0, 1, 0, 7⟩ : IterRecord ℤ ℤ ℤ ℚ).rec_intersection ∧
    (⟨0, 1, 0, 7⟩ : IterRecord ℤ ℤ ℤ ℚ).rec_state =
        Ccx.explore_asteroid (loop_state Ccx 0 1 0).1
          (⟨0, 1, 0, 7⟩ : IterRecord ℤ ℤ ℤ ℚ).rec_mesh ∧
    loop_state Ccx 0 1 (0 + 1) =
        ((⟨0, 1, 0, 7⟩ : IterRecord ℤ ℤ ℤ ℚ).rec_state,
          (⟨0, 1, 0, 7⟩ : IterRecord ℤ ℤ ℤ ℚ).rec_mesh) :=
  C1_recorded_snapshot Ccx 1 0 1 0 ⟨0, 1, 0, 7⟩
    (by norm_num [explore_loop, explore_step, Ccx])

/-- C4: within any bound `fuel` on the number of iterations inspected, the
driver records iteration `i` exactly when the weight sum exceeded `10⁻²` at
every inter-iteration check up to and including the one before iteration `i`;
in particular no iteration starts while the current weight sum is at most
`10⁻²` (zero iterations when the initial sum is), and the loop stops at the
first check at which the recomputed sum is at most `10⁻²`. -/
theorem C4_termination (C : Components St Tgt Obs Mesh) (fuel : ℕ) (s : St)
    (m : Mesh) (i : ℕ) :
    i < (explore_loop C fuel s m).length ↔
      (i < fuel ∧ ∀ j, j ≤ i → 1 / 100 < C.weight_sum (loop_state C s m j).2) :=
  explore_loop_length_iff C fuel s m i

/-- C5: within every recorded iteration the data flows in source order — the
target comes from the iteration's starting pose, the intersection from casting
that pose toward that target, the recorded estimate from folding that
intersection into the iteration's starting estimate, and the recorded state
from running the controller on that starting pose and the *updated* estimate,
so the controller observes the mutations made by the reconstruction update of
the same iteration. -/
theorem C5_dataflow_order (C : Components St Tgt Obs Mesh) (fuel : ℕ) (s : St)
    (m : Mesh) (i : ℕ) (r : IterRecord St Tgt Obs Mesh)
    (h : (explore_loop C fuel s m).get? i = some r) :
    r.rec_target = C.define_target (loop_state C s m i).1 ∧
    r.rec_intersection =
      C.castray (loop_state C s m i).1
        (C.define_target (loop_state C s m i).1) ∧
    r.rec_mesh =
      C.single_update (loop_state C s m i).2
        (C.castray (loop_state C s m i).1
          (C.define_target (loop_state C s m i).1)) ∧
    r.rec_state =
      C.explore_asteroid (loop_state C s m i).1
        (C.single_update (loop_state C s m i).2
          (C.castray (loop_state C s m i).1
            (C.define_target (loop_state C s m i).1))) := by
  have hr := explore_loop_get_eq C fuel s m i r h
  subst hr
  exact ⟨rfl, rfl, rfl, rfl⟩

/-- C5, witness: the dataflow equalities evaluated on the concrete components
`Ccx` from pose `5` and weight sum `1`. -/
theorem C5_dataflow_order_witness :
    (⟨0, 6, 5, 17⟩ : IterRecord ℤ ℤ ℤ ℚ).rec_target =
        Ccx.define_target (loop_state Ccx 5 1 0).1 ∧
    (⟨0, 6, 5, 17⟩ : IterRecord ℤ ℤ ℤ ℚ).rec_intersection =
        Ccx.castray (loop_state Ccx 5 1 0).1
          (Ccx.define_target (loop_state Ccx 5 1 0).1) ∧
    (⟨0, 6, 5, 17⟩ : IterRecord ℤ ℤ ℤ ℚ).rec_mesh =
        Ccx.single_update (loop_state Ccx 5 1 0).2
          (Ccx.castray (loop_state Ccx 5 1 0).1
            (Ccx.define_target (loop_state Ccx 5 1 0).1)) ∧
    (⟨0, 6, 5, 17⟩ : IterRecord ℤ ℤ ℤ ℚ).rec_state =
        Ccx.explore_asteroid (loop_state Ccx 5 1 0).1
          (Ccx.single_update (loop_state Ccx 5 1 0).2
            (Ccx.castray (loop_state Ccx 5 1 0).1
              (Ccx.define_target (loop_state Ccx 5 1 0).1))) :=
  C5_dataflow_order Ccx 2 5 1 0 ⟨0, 6, 5, 17⟩
    (by norm_num [explore_loop, explore_step, Ccx])

/-- C8: when the reconstruction update makes no change to the estimate (the
skipped/no-op update following a missed cast or an observation at the origin),
the iteration is nevertheless recorded in full — estimate, state, target and
the returned intersection value — and the loop proceeds to the next
iteration's check; recording is unconditional on the cast having hit. -/
theorem C8_records_no_hit (C : Components St Tgt Obs Mesh) (fuel : ℕ) (s : St)
    (m : Mesh)
    (hskip : C.single_update m (C.castray s (C.define_target s)) = m)
    (hw : 1 / 100 < C.weight_sum m) :
    explore_loop C (fuel + 1) s m =
      { rec_mesh := m, rec_state := C.explore_asteroid s m,
        rec_target := C.define_target s,
        rec_intersection := C.castray s (C.define_target s) } ::
        explore_loop C fuel (C.explore_asteroid s m) m := by
  rw [explore_loop, if_pos hw]
  simp only [explore_step, hskip]

/-- C8, witness: with `Cskip` (zero-sentinel cast, no-op update) the single
bounded iteration from pose `0` and weight sum `1` is recorded in full and
followed by the next check. -/
theorem C8_records_no_hit_witness :
    explore_loop Cskip (0 + 1) 0 1 =
      { rec_mesh := (1 : ℚ), rec_state := Cskip.explore_asteroid 0 1,
        rec_target := Cskip.define_target 0,
        rec_intersection := Cskip.castray 0 (Cskip.define_target 0) } ::
        explore_loop Cskip 0 (Cskip.explore_asteroid 0 1) 1 :=
  C8_records_no_hit Cskip 0 0 1 rfl (by norm_num [Cskip])

/-! ## Claims C3, C6, C7 -/

/-- C3, counterexample to the claim as stated: invoking the program with `-h`
takes the usage branch, which executes `return 1` (explore_main.cpp line 31),
not exit code 0 as the claim states. -/
theorem C3_counterexample :
    explore_main ["-h"] = MainResult.usage ∧
    exit_code (explore_main ["-h"]) = 1 ∧
    ¬ exit_code (explore_main ["-h"]) = 0 := by
  refine ⟨rfl, rfl, ?_⟩
  intro h
  simp [explore_main, option_exists, exit_code] at h

/-- C3 (amended): `-h` prints usage and exits 1 (not 0); a missing `-o` or
`-n` argument and an unrecognized asteroid name also exit 1; a recognized
asteroid reaches the loop and the fall-through `return 0`.  No branch of
`main` produces exit code 2: mesh and IO failures are not mapped to an exit
code by `main` (they escape as exceptions from the external loader and HDF5
components), so the only exit codes `main` returns are 0 and 1. -/
theorem C3_exit_codes (args : List String) :
    (exit_code (explore_main args) = 0 ∨ exit_code (explore_main args) = 1) ∧
    ¬ exit_code (explore_main args) = 2 ∧
    (option_exists args "-h" = true →
      explore_main args = MainResult.usage ∧ exit_code (explore_main args) = 1) ∧
    (option_exists args "-h" = false → get_command_option args "-o" = "" →
      explore_main args = MainResult.missing_output ∧
        exit_code (explore_main args) = 1) ∧
    (option_exists args "-h" = false → ¬ get_command_option args "-o" = "" →
      get_command_option args "-n" = "" →
      explore_main args = MainResult.missing_name ∧
        exit_code (explore_main args) = 1) ∧
    (option_exists args "-h" = false → ¬ get_command_option args "-o" = "" →
      asteroidConfig (get_command_option args "-n") = none →
      exit_code (explore_main args) = 1) ∧
    (∀ c : AstConfig, explore_main args = MainResult.run c →
      exit_code (explore_main args) = 0) := by
  refine ⟨?_, ?_, ?_, ?_, ?_, ?_, ?_⟩
  · cases hm : explore_main args <;> simp [exit_code]
  · cases hm : explore_main args <;> simp [exit_code]
  · intro hh
    have hm : explore_main args = MainResult.usage := by
      simp [explore_main, hh]
    exact ⟨hm, by rw [hm]; rfl⟩
  · intro hh ho
    have hm : explore_main args = MainResult.missing_output := by
      simp [explore_main, hh, ho]
    exact ⟨hm, by rw [hm]; rfl⟩
  · intro hh ho hn
    have hm : explore_main args = MainResult.missing_name := by
      simp [explore_main, hh, ho, hn]
    exact ⟨hm, by rw [hm]; rfl⟩
  · intro hh ho hcfg
    by_cases hn : get_command_option args "-n" = ""
    · have hm : explore_main args = MainResult.missing_name := by
        simp [explore_main, hh, ho, hn]
      rw [hm]; rfl
    · have hm : explore_main args = MainResult.unknown_asteroid := by
        simp [explore_main, hh, ho, hn, hcfg]
      rw [hm]; rfl
  · intro c hm
    rw [hm]; rfl

/-- C3, witness: a run invoked with an output file and the asteroid name
`castalia` reaches the loop branch and exits 0. -/
theorem C3_exit_codes_witness :
    exit_code (explore_main ["-o", "data.hdf5", "-n", "castalia"]) = 0 :=
  (C3_exit_codes ["-o", "data.hdf5", "-n", "castalia"]).2.2.2.2.2.2
    castalia_config rfl

/-- C6: for every asteroid the driver configures, the angular tolerance passed
to `single_update` is `pow(surf_area / (axes[0] * axes[0]), 0.5)`
(explore_main.cpp line 107), which equals `√(σ / a²)` for the configured
surface-patch area `σ` and first semi-axis `a`. -/
theorem C6_max_angle (ast_name : String) (c : AstConfig)
    (_h : asteroidConfig ast_name = some c) :
    max_angle c = Real.sqrt ((c.surf_area : ℝ) / (c.axes.1 : ℝ) ^ 2) := by
  have hgen : ∀ x : ℝ, x ^ ((1 : ℝ) / 2) = Real.sqrt x := by
    intro x
    rw [Real.sqrt_eq_rpow]
  rw [max_angle, hgen, pow_two]

/-- C6, witness: the tolerance for the castalia configuration. -/
theorem C6_max_angle_witness :
    max_angle castalia_config =
      Real.sqrt ((castalia_config.surf_area : ℝ) /
        (castalia_config.axes.1 : ℝ) ^ 2) :=
  C6_max_angle "castalia" castalia_config rfl

/-- C7: the four recognized asteroid names configure exactly the bundled
values of the spec table — minimum facet angle 10, maximum circumradius
0.03 / 0.05 / 0.015 / 0.05, maximum centroid-to-surface distance 0.5,
surface-patch area 0.005, halved semi-axes (0.8065, 0.4905, 0.4130) /
(2.5, 1.0, 1.05) / (0.4, 0.4, 0.4) / (0.55, 0.55, 0.55), and initial
positions (1.5, 0, 0) / (5, 0, 0) / (1, 0, 0) / (1.5, 0, 0). -/
theorem C7_bundled_configs :
    asteroidConfig "castalia" = some
      { min_angle := 10, max_radius := 3 / 100, max_distance := 1 / 2,
        surf_area := 5 / 1000,
        axes := (8065 / 10000, 4905 / 10000, 4130 / 10000),
        obj_path := "./data/shape_model/CASTALIA/castalia.obj",
        initial_pos := (15 / 10, 0, 0) } ∧
    asteroidConfig "geographos" = some
      { min_angle := 10, max_radius := 5 / 100, max_distance := 1 / 2,
        surf_area := 5 / 1000,
        axes := (25 / 10, 1, 105 / 100),
        obj_path := "./data/shape_model/RADAR/1620geographos.obj",
        initial_pos := (5, 0, 0) } ∧
    asteroidConfig "golevka" = some
      { min_angle := 10, max_radius := 15 / 1000, max_distance := 1 / 2,
        surf_area := 5 / 1000,
        axes := (4 / 10, 4 / 10, 4 / 10),
        obj_path := "./data/shape_model/RADAR/6489golevka.obj",
        initial_pos := (1, 0, 0) } ∧
    asteroidConfig "52760" = some
      { min_angle := 10, max_radius := 5 / 100, max_distance := 1 / 2,
        surf_area := 5 / 1000,
        axes := (55 / 100, 55 / 100, 55 / 100),
        obj_path := "./data/shape_model/RADAR/52760.obj",
        initial_pos := (15 / 10, 0, 0) } := by
  refine ⟨?_, ?_, ?_, ?_⟩ <;>
    · simp only [asteroidConfig, String.reduceEq, reduceIte, Option.some.injEq]
      norm_num [castalia_config, geographos_config, golevka_config,
        ast52760_config, AstConfig.mk.injEq, Prod.ext_iff]

end AstExplore
